import Mathlib

/-!
# llvm-c/lto.h : the LTO public C interface

A shallow embedding of `include/llvm-c/lto.h`.  The header fixes the numeric
values of the symbol-attribute constants and of the diagnostic severities;
these are embedded as natural numbers (all of them are non-negative C `int`
enumerators, so bitwise AND / OR on `Nat` agrees with the C operators).
-/

namespace LTO

/-! ## `lto_symbol_attributes` (lto.h, lines 48-66) -/

def LTO_SYMBOL_ALIGNMENT_MASK : Nat := 0x0000001F
def LTO_SYMBOL_PERMISSIONS_MASK : Nat := 0x000000E0
def LTO_SYMBOL_PERMISSIONS_CODE : Nat := 0x000000A0
def LTO_SYMBOL_PERMISSIONS_DATA : Nat := 0x000000C0
def LTO_SYMBOL_PERMISSIONS_RODATA : Nat := 0x00000080
def LTO_SYMBOL_DEFINITION_MASK : Nat := 0x00000700
def LTO_SYMBOL_DEFINITION_REGULAR : Nat := 0x00000100
def LTO_SYMBOL_DEFINITION_TENTATIVE : Nat := 0x00000200
def LTO_SYMBOL_DEFINITION_WEAK : Nat := 0x00000300
def LTO_SYMBOL_DEFINITION_UNDEFINED : Nat := 0x00000400
def LTO_SYMBOL_DEFINITION_WEAKUNDEF : Nat := 0x00000500
def LTO_SYMBOL_SCOPE_MASK : Nat := 0x00003800
def LTO_SYMBOL_SCOPE_INTERNAL : Nat := 0x00000800
def LTO_SYMBOL_SCOPE_HIDDEN : Nat := 0x00001000
def LTO_SYMBOL_SCOPE_PROTECTED : Nat := 0x00002000
def LTO_SYMBOL_SCOPE_DEFAULT : Nat := 0x00001800
def LTO_SYMBOL_SCOPE_DEFAULT_CAN_BE_HIDDEN : Nat := 0x00002800

/-- The four class masks of `lto_symbol_attributes`, in declaration order. -/
def classMasks : List Nat :=
  [LTO_SYMBOL_ALIGNMENT_MASK, LTO_SYMBOL_PERMISSIONS_MASK,
   LTO_SYMBOL_DEFINITION_MASK, LTO_SYMBOL_SCOPE_MASK]

/-- The named permission constants, in declaration order. -/
def permissionConstants : List Nat :=
  [LTO_SYMBOL_PERMISSIONS_CODE, LTO_SYMBOL_PERMISSIONS_DATA,
   LTO_SYMBOL_PERMISSIONS_RODATA]

/-- The named definition constants, in declaration order. -/
def definitionConstants : List Nat :=
  [LTO_SYMBOL_DEFINITION_REGULAR, LTO_SYMBOL_DEFINITION_TENTATIVE,
   LTO_SYMBOL_DEFINITION_WEAK, LTO_SYMBOL_DEFINITION_UNDEFINED,
   LTO_SYMBOL_DEFINITION_WEAKUNDEF]

/-- The named scope constants, in declaration order. -/
def scopeConstants : List Nat :=
  [LTO_SYMBOL_SCOPE_INTERNAL, LTO_SYMBOL_SCOPE_HIDDEN,
   LTO_SYMBOL_SCOPE_PROTECTED, LTO_SYMBOL_SCOPE_DEFAULT,
   LTO_SYMBOL_SCOPE_DEFAULT_CAN_BE_HIDDEN]

/-- The alignment field of an attribute word. -/
def alignmentField (w : Nat) : Nat := w &&& LTO_SYMBOL_ALIGNMENT_MASK

/-- The permission field of an attribute word. -/
def permissionField (w : Nat) : Nat := w &&& LTO_SYMBOL_PERMISSIONS_MASK

/-- The definition field of an attribute word. -/
def definitionField (w : Nat) : Nat := w &&& LTO_SYMBOL_DEFINITION_MASK

/-- The scope field of an attribute word. -/
def scopeField (w : Nat) : Nat := w &&& LTO_SYMBOL_SCOPE_MASK

/-! ### The four-field record of the design notes

The design notes ask for the packed integer to be replaced by a record of an
alignment (log2) and three enumerations.  The enumerations below list the
named constants of each class; `code` gives each member the value the header
assigns to it.  A permission of "none" is the absence of any permission bit. -/

inductive Permission where
  | NONE
  | CODE
  | DATA
  | RODATA
  deriving DecidableEq, Repr, Fintype

inductive Definition where
  | REGULAR
  | TENTATIVE
  | WEAK
  | UNDEFINED
  | WEAKUNDEF
  deriving DecidableEq, Repr, Fintype

inductive Scope where
  | INTERNAL
  | HIDDEN
  | PROTECTED
  | DEFAULT
  | DEFAULT_CAN_BE_HIDDEN
  deriving DecidableEq, Repr, Fintype

def Permission.code : Permission → Nat
  | .NONE => 0
  | .CODE => LTO_SYMBOL_PERMISSIONS_CODE
  | .DATA => LTO_SYMBOL_PERMISSIONS_DATA
  | .RODATA => LTO_SYMBOL_PERMISSIONS_RODATA

def Definition.code : Definition → Nat
  | .REGULAR => LTO_SYMBOL_DEFINITION_REGULAR
  | .TENTATIVE => LTO_SYMBOL_DEFINITION_TENTATIVE
  | .WEAK => LTO_SYMBOL_DEFINITION_WEAK
  | .UNDEFINED => LTO_SYMBOL_DEFINITION_UNDEFINED
  | .WEAKUNDEF => LTO_SYMBOL_DEFINITION_WEAKUNDEF

def Scope.code : Scope → Nat
  | .INTERNAL => LTO_SYMBOL_SCOPE_INTERNAL
  | .HIDDEN => LTO_SYMBOL_SCOPE_HIDDEN
  | .PROTECTED => LTO_SYMBOL_SCOPE_PROTECTED
  | .DEFAULT => LTO_SYMBOL_SCOPE_DEFAULT
  | .DEFAULT_CAN_BE_HIDDEN => LTO_SYMBOL_SCOPE_DEFAULT_CAN_BE_HIDDEN

/-- The member of the permission class whose code is the given field value. -/
def Permission.ofField (f : Nat) : Option Permission :=
  if f = 0 then some .NONE
  else if f = LTO_SYMBOL_PERMISSIONS_CODE then some .CODE
  else if f = LTO_SYMBOL_PERMISSIONS_DATA then some .DATA
  else if f = LTO_SYMBOL_PERMISSIONS_RODATA then some .RODATA
  else none

/-- The member of the definition class whose code is the given field value. -/
def Definition.ofField (f : Nat) : Option Definition :=
  if f = LTO_SYMBOL_DEFINITION_REGULAR then some .REGULAR
  else if f = LTO_SYMBOL_DEFINITION_TENTATIVE then some .TENTATIVE
  else if f = LTO_SYMBOL_DEFINITION_WEAK then some .WEAK
  else if f = LTO_SYMBOL_DEFINITION_UNDEFINED then some .UNDEFINED
  else if f = LTO_SYMBOL_DEFINITION_WEAKUNDEF then some .WEAKUNDEF
  else none

/-- The member of the scope class whose code is the given field value. -/
def Scope.ofField (f : Nat) : Option Scope :=
  if f = LTO_SYMBOL_SCOPE_INTERNAL then some .INTERNAL
  else if f = LTO_SYMBOL_SCOPE_HIDDEN then some .HIDDEN
  else if f = LTO_SYMBOL_SCOPE_PROTECTED then some .PROTECTED
  else if f = LTO_SYMBOL_SCOPE_DEFAULT then some .DEFAULT
  else if f = LTO_SYMBOL_SCOPE_DEFAULT_CAN_BE_HIDDEN then some .DEFAULT_CAN_BE_HIDDEN
  else none

/-- Symbol attributes as a record of four separate fields. -/
structure SymbolAttributes where
  alignment : Nat
  permission : Permission
  definition : Definition
  scope : Scope
  deriving DecidableEq, Repr

/-- The packed attribute word of a record: the bitwise OR of its four fields. -/
def SymbolAttributes.pack (x : SymbolAttributes) : Nat :=
  x.alignment ||| x.permission.code ||| x.definition.code ||| x.scope.code

/-- Decoding of a packed attribute word: each field is extracted with its class
mask and looked up among the members of its class. -/
def SymbolAttributes.unpack (w : Nat) : Option SymbolAttributes :=
  match Permission.ofField (permissionField w), Definition.ofField (definitionField w),
      Scope.ofField (scopeField w) with
  | some p, some d, some s => some ⟨alignmentField w, p, d, s⟩
  | _, _, _ => none

/-! ## `lto_codegen_diagnostic_severity_t` (lto.h, lines 288-298) -/

/-- Diagnostic severity; the constructors are listed in the order in which the
header declares the enumerators. -/
inductive lto_codegen_diagnostic_severity_t where
  | LTO_DS_ERROR
  | LTO_DS_WARNING
  | LTO_DS_REMARK
  | LTO_DS_NOTE
  deriving DecidableEq, Repr

/-- The integer value the header assigns to each severity. -/
def severityCode : lto_codegen_diagnostic_severity_t → Nat
  | .LTO_DS_ERROR => 0
  | .LTO_DS_WARNING => 1
  | .LTO_DS_REMARK => 3
  | .LTO_DS_NOTE => 2

/-- The enumerators in declaration order. -/
def severityDeclarationOrder : List lto_codegen_diagnostic_severity_t :=
  [.LTO_DS_ERROR, .LTO_DS_WARNING, .LTO_DS_REMARK, .LTO_DS_NOTE]

/-- Decoding of an integer code back to its severity. -/
def severityOfCode (n : Nat) : Option lto_codegen_diagnostic_severity_t :=
  if n = 0 then some .LTO_DS_ERROR
  else if n = 1 then some .LTO_DS_WARNING
  else if n = 3 then some .LTO_DS_REMARK
  else if n = 2 then some .LTO_DS_NOTE
  else none

/-! ## Modules and the code generator

The header only declares `lto_module_*` and `lto_codegen_*`; their bodies are
not part of it.  The definitions of this section follow the specification of
the module / code-generator layer. -/

/-- The error kinds of the specification. -/
inductive LtoError where
  | LoadError
  | IndexError
  | ConfigError
  | CompileError
  deriving DecidableEq, Repr

/-- A symbol record: a name and its packed attribute word. -/
structure Symbol where
  name : String
  attributes : Nat
  deriving DecidableEq, Repr

/-- The metadata embedded in a recognised container: its target triple, its
symbol entries, its dependent libraries and its linker options. -/
structure Container where
  target_triple : String
  symbol_entries : List Symbol
  dependent_libraries : List String
  linker_options : List String
  deriving DecidableEq, Repr

/-- Modelled from the spec: `struct LTOModule` is opaque in the header.  A module
owns a target triple, an ordered sequence of symbols built once at load time
from the container's embedded metadata, the dependent libraries and the linker
options. -/
structure LTOModule where
  target_triple : String
  symbols : List Symbol
  dependent_libraries : List String
  linker_options : List String
  deriving DecidableEq, Repr

/-- Modelled from the spec: the body of `lto_module_create_from_memory` is not in
the header.  The bytes are classified and parsed by `parse` (the container
format is outside the header); unrecognised data is a load failure, and a
recognised container yields a module whose symbol table is the container's
sequence of symbol entries in load order. -/
def lto_module_create_from_memory (parse : List Nat → Option Container)
    (mem : List Nat) : Except LtoError LTOModule :=
  match parse mem with
  | none => .error .LoadError
  | some c => .ok ⟨c.target_triple, c.symbol_entries, c.dependent_libraries, c.linker_options⟩

/-- Modelled from the spec: the body of `lto_module_get_num_symbols` is not in
the header; `symbol_count()` is the length of the module's symbol sequence. -/
def lto_module_get_num_symbols (mod : LTOModule) : Nat :=
  mod.symbols.length

/-- Modelled from the spec: the body of `lto_module_get_symbol_name` is not in
the header; `symbol_name(i)` fails with `IndexError` if `i >= symbol_count()`. -/
def lto_module_get_symbol_name (mod : LTOModule) (index : Nat) : Except LtoError String :=
  if h : index < lto_module_get_num_symbols mod then .ok (mod.symbols.get ⟨index, h⟩).name
  else .error .IndexError

/-- Modelled from the spec: the body of `lto_module_get_symbol_attribute` is not
in the header; `symbol_attributes(i)` fails with `IndexError` if
`i >= symbol_count()`. -/
def lto_module_get_symbol_attribute (mod : LTOModule) (index : Nat) : Except LtoError Nat :=
  if h : index < lto_module_get_num_symbols mod then .ok (mod.symbols.get ⟨index, h⟩).attributes
  else .error .IndexError

/-- Modelled from the spec: `struct LTOCodeGenerator` is opaque in the header.
The generator holds the registered modules in order, the working triple (fixed
by the first module added unless set explicitly), the preserved symbols and the
target configuration strings. -/
structure LTOCodeGenerator where
  modules : List LTOModule
  working_triple : Option String
  preserved_symbols : List String
  target_cpu : Option String
  assembler_path : Option String
  assembler_args : List String
  deriving DecidableEq, Repr

/-- Modelled from the spec: the body of `lto_codegen_create` is not in the
header; a fresh generator holds no module and no configuration. -/
def lto_codegen_create : LTOCodeGenerator :=
  ⟨[], none, [], none, none, []⟩

/-- Modelled from the spec: the body of `lto_codegen_add_module` is not in the
header.  `add_module(module) -> bool (true = error)` registers the module;
it fails if the module's triple is incompatible with a triple already fixed by
a prior module or explicit configuration; the triple of the first module added
becomes the working triple unless already set.  What makes two triples
compatible is not stated, so the relation is a parameter. -/
def lto_codegen_add_module (compatible : String → String → Bool)
    (cg : LTOCodeGenerator) (mod : LTOModule) : Bool × LTOCodeGenerator :=
  match cg.working_triple with
  | none =>
    (false, { cg with modules := cg.modules ++ [mod],
                      working_triple := some mod.target_triple })
  | some t =>
    if compatible t mod.target_triple then
      (false, { cg with modules := cg.modules ++ [mod] })
    else (true, cg)

/-- A container with two symbol entries, for concrete evaluation. -/
def exampleContainer : Container :=
  ⟨"x86_64-apple-darwin", [⟨"_main", 0x19A4⟩, ⟨"_table", 0x1183⟩], [], []⟩

/-- A recogniser that accepts exactly the four bytes 0x42 0x43 0xC0 0xDE and
yields `exampleContainer` for them, for concrete evaluation. -/
def exampleParse (mem : List Nat) : Option Container :=
  if mem = [0x42, 0x43, 0xC0, 0xDE] then some exampleContainer else none

end LTO

namespace LTO

/-- Packing and field extraction over all records with a five-bit alignment. -/
theorem pack_fields_fin :
    ∀ (a : Fin 32) (p : Permission) (d : Definition) (s : Scope),
      (a.val ||| p.code ||| d.code ||| s.code) &&& LTO_SYMBOL_ALIGNMENT_MASK = a.val ∧
      (a.val ||| p.code ||| d.code ||| s.code) &&& LTO_SYMBOL_PERMISSIONS_MASK = p.code ∧
      (a.val ||| p.code ||| d.code ||| s.code) &&& LTO_SYMBOL_DEFINITION_MASK = d.code ∧
      (a.val ||| p.code ||| d.code ||| s.code) &&& LTO_SYMBOL_SCOPE_MASK = s.code := by
  decide!

theorem permission_ofField_code (p : Permission) : Permission.ofField p.code = some p := by
  cases p <;> rfl

theorem definition_ofField_code (d : Definition) : Definition.ofField d.code = some d := by
  cases d <;> rfl

theorem scope_ofField_code (s : Scope) : Scope.ofField s.code = some s := by
  cases s <;> rfl

theorem permission_ofField_isSome (f : Nat) :
    (Permission.ofField f).isSome ↔ f ∈ 0 :: permissionConstants := by
  unfold Permission.ofField permissionConstants
  split_ifs <;> simp_all

theorem definition_ofField_isSome (f : Nat) :
    (Definition.ofField f).isSome ↔ f ∈ definitionConstants := by
  unfold Definition.ofField definitionConstants
  split_ifs <;> simp_all

theorem scope_ofField_isSome (f : Nat) :
    (Scope.ofField f).isSome ↔ f ∈ scopeConstants := by
  unfold Scope.ofField scopeConstants
  split_ifs <;> simp_all

theorem unpack_pack (x : SymbolAttributes) (hx : x.alignment < 32) :
    SymbolAttributes.unpack x.pack = some x := by
  obtain ⟨a, p, d, s⟩ := x
  obtain ⟨h1, h2, h3, h4⟩ := pack_fields_fin ⟨a, hx⟩ p d s
  simp only [SymbolAttributes.unpack, SymbolAttributes.pack, alignmentField, permissionField,
    definitionField, scopeField] at *
  rw [h1, h2, h3, h4, permission_ofField_code, definition_ofField_code, scope_ofField_code]

theorem filter_eq_length_le_one (l : List Nat) (hl : l.Nodup) (v : Nat) :
    (l.filter (fun c => decide (v = c))).length ≤ 1 := by
  induction l with
  | nil => simp
  | cons a t ih =>
    rw [List.nodup_cons] at hl
    by_cases h : v = a
    · subst h
      have ht : t.filter (fun c => decide (v = c)) = [] := by
        rw [List.filter_eq_nil_iff]
        intro c hc
        simp only [decide_eq_true_eq]
        rintro rfl
        exact hl.1 hc
      simp [List.filter_cons, ht]
    · simp only [List.filter_cons, h, decide_False, Bool.false_eq_true, if_false]
      exact ih hl.2

/-- C1: the four class masks (alignment 0x1F, permissions 0xE0, definition
0x700, scope 0x3800) have the stated values and any two distinct masks among
them have bitwise AND equal to zero. -/
theorem class_masks_pairwise_disjoint :
    classMasks = [0x1F, 0xE0, 0x700, 0x3800] ∧
    ∀ m1 ∈ classMasks, ∀ m2 ∈ classMasks, m1 ≠ m2 → m1 &&& m2 = 0 := by
  decide

/-- C4: the alignment mask is `2^5 - 1`; the alignment extracted from any
attribute word is below 32, and every value below 32 is extracted unchanged. -/
theorem alignment_field_five_bits :
    LTO_SYMBOL_ALIGNMENT_MASK = 2 ^ 5 - 1 ∧
    (∀ w : Nat, w &&& LTO_SYMBOL_ALIGNMENT_MASK < 32) ∧
    (∀ a : Nat, a < 32 → a &&& LTO_SYMBOL_ALIGNMENT_MASK = a) := by
  refine ⟨by decide, ?_, ?_⟩
  · intro w
    have h : w &&& LTO_SYMBOL_ALIGNMENT_MASK = w % 2 ^ 5 :=
      Nat.and_pow_two_sub_one_eq_mod w 5
    rw [h]
    exact Nat.mod_lt _ (by decide)
  · intro a ha
    have h : a &&& LTO_SYMBOL_ALIGNMENT_MASK = a % 2 ^ 5 :=
      Nat.and_pow_two_sub_one_eq_mod a 5
    rw [h]
    exact Nat.mod_eq_of_lt ha

/-- C2: for every record with a five-bit alignment and one member of each of
the permission (none, code, data, rodata), definition and scope classes, the
packed word (the OR of the four fields) yields the same four fields back under
the four class masks, decodes to the same record, and two such records with
the same packed word are equal. -/
theorem pack_preserves_fields (x y : SymbolAttributes)
    (hx : x.alignment < 32) (hy : y.alignment < 32) :
    (x.pack &&& LTO_SYMBOL_ALIGNMENT_MASK = x.alignment ∧
     x.pack &&& LTO_SYMBOL_PERMISSIONS_MASK = x.permission.code ∧
     x.pack &&& LTO_SYMBOL_DEFINITION_MASK = x.definition.code ∧
     x.pack &&& LTO_SYMBOL_SCOPE_MASK = x.scope.code) ∧
    SymbolAttributes.unpack x.pack = some x ∧
    (x.pack = y.pack → x = y) := by
  refine ⟨?_, unpack_pack x hx, ?_⟩
  · exact pack_fields_fin ⟨x.alignment, hx⟩ x.permission x.definition x.scope
  · intro h
    have h1 := unpack_pack x hx
    have h2 := unpack_pack y hy
    rw [h, h2] at h1
    exact (Option.some.inj h1).symm

/-- C2 at a concrete record: a code symbol, regular definition, default scope,
alignment 2^4, compared with a hidden read-only tentative symbol. -/
theorem pack_preserves_fields_witness :
    (4 : Nat) < 32 ∧ (0 : Nat) < 32 ∧
    ((SymbolAttributes.mk 4 .CODE .REGULAR .DEFAULT).pack = 0x19A4 ∧
     SymbolAttributes.unpack 0x19A4 = some (SymbolAttributes.mk 4 .CODE .REGULAR .DEFAULT)) ∧
    ((SymbolAttributes.mk 4 .CODE .REGULAR .DEFAULT).pack &&& LTO_SYMBOL_PERMISSIONS_MASK
      = LTO_SYMBOL_PERMISSIONS_CODE) := by
  have h := pack_preserves_fields (SymbolAttributes.mk 4 .CODE .REGULAR .DEFAULT)
    (SymbolAttributes.mk 0 .RODATA .TENTATIVE .HIDDEN) (by decide) (by decide)
  refine ⟨by decide, by decide, ⟨by decide, ?_⟩, h.1.2.1⟩
  have h2 := h.2.1
  have h3 : (SymbolAttributes.mk 4 .CODE .REGULAR .DEFAULT).pack = 0x19A4 := by decide
  rw [h3] at h2
  exact h2

/-- C3: for every attribute word and each of the permission, definition and
scope classes, at most one named constant of the class equals the class field of
the word; the named constants of one class are pairwise distinct under the class
mask. -/
theorem at_most_one_value_per_class (w : Nat) :
    ((permissionConstants.filter (fun c => decide (w &&& LTO_SYMBOL_PERMISSIONS_MASK = c))).length ≤ 1 ∧
     (definitionConstants.filter (fun c => decide (w &&& LTO_SYMBOL_DEFINITION_MASK = c))).length ≤ 1 ∧
     (scopeConstants.filter (fun c => decide (w &&& LTO_SYMBOL_SCOPE_MASK = c))).length ≤ 1) ∧
    (∀ c1 ∈ permissionConstants, ∀ c2 ∈ permissionConstants, c1 ≠ c2 →
      c1 &&& LTO_SYMBOL_PERMISSIONS_MASK ≠ c2 &&& LTO_SYMBOL_PERMISSIONS_MASK) ∧
    (∀ c1 ∈ definitionConstants, ∀ c2 ∈ definitionConstants, c1 ≠ c2 →
      c1 &&& LTO_SYMBOL_DEFINITION_MASK ≠ c2 &&& LTO_SYMBOL_DEFINITION_MASK) ∧
    (∀ c1 ∈ scopeConstants, ∀ c2 ∈ scopeConstants, c1 ≠ c2 →
      c1 &&& LTO_SYMBOL_SCOPE_MASK ≠ c2 &&& LTO_SYMBOL_SCOPE_MASK) := by
  refine ⟨⟨?_, ?_, ?_⟩, by decide, by decide, by decide⟩
  · exact filter_eq_length_le_one _ (by decide) _
  · exact filter_eq_length_le_one _ (by decide) _
  · exact filter_eq_length_le_one _ (by decide) _

/-- C8: the severity enumeration has exactly four members with pairwise
distinct codes; error = 0, warning = 1, note = 2; in declaration order (error,
warning, remark, note) the codes are 0, 1, 3, 2, which is not increasing; and
decoding is a bijection between the codes 0..3 and the four members. -/
theorem severity_codes :
    ((∀ s, s ∈ severityDeclarationOrder) ∧ severityDeclarationOrder.Nodup ∧
      severityDeclarationOrder.length = 4) ∧
    Function.Injective severityCode ∧
    (severityCode .LTO_DS_ERROR = 0 ∧ severityCode .LTO_DS_WARNING = 1 ∧
      severityCode .LTO_DS_NOTE = 2 ∧ severityCode .LTO_DS_REMARK = 3) ∧
    severityDeclarationOrder =
      [.LTO_DS_ERROR, .LTO_DS_WARNING, .LTO_DS_REMARK, .LTO_DS_NOTE] ∧
    severityDeclarationOrder.map severityCode = [0, 1, 3, 2] ∧
    ¬ (severityDeclarationOrder.map severityCode).Pairwise (fun a b => a < b) ∧
    (∀ s, severityCode s < 4 ∧ severityOfCode (severityCode s) = some s) ∧
    (∀ n, n < 4 → ∃ s, severityOfCode n = some s ∧ severityCode s = n) ∧
    (∀ n, 4 ≤ n → severityOfCode n = none) := by
  refine ⟨⟨?_, by decide, rfl⟩, ?_, ⟨rfl, rfl, rfl, rfl⟩, rfl, rfl, by decide, ?_, ?_, ?_⟩
  · intro s
    cases s <;> decide
  · intro a b h
    cases a <;> cases b <;> first | rfl | (exact absurd h (by decide))
  · intro s
    cases s <;> exact ⟨by decide, rfl⟩
  · intro n hn
    interval_cases n
    · exact ⟨.LTO_DS_ERROR, rfl, rfl⟩
    · exact ⟨.LTO_DS_WARNING, rfl, rfl⟩
    · exact ⟨.LTO_DS_NOTE, rfl, rfl⟩
    · exact ⟨.LTO_DS_REMARK, rfl, rfl⟩
  · intro n hn
    unfold severityOfCode
    split_ifs <;> first | omega | rfl

/-- C9: within one class the named constants are not bit-disjoint: RODATA
(0x80) is a bit-subset of CODE (0xA0) and of DATA (0xC0), INTERNAL (0x800) of
DEFAULT (0x1800), REGULAR (0x100) of WEAK (0x300); and the word of a code
symbol with a weak definition and default scope passes the bit test
`w AND c = c` for two distinct named constants of each class. -/
theorem bit_test_not_a_decoder :
    (LTO_SYMBOL_PERMISSIONS_RODATA = 0x80 ∧ LTO_SYMBOL_PERMISSIONS_CODE = 0xA0 ∧
      LTO_SYMBOL_PERMISSIONS_DATA = 0xC0 ∧ LTO_SYMBOL_SCOPE_INTERNAL = 0x800 ∧
      LTO_SYMBOL_SCOPE_DEFAULT = 0x1800 ∧ LTO_SYMBOL_DEFINITION_REGULAR = 0x100 ∧
      LTO_SYMBOL_DEFINITION_WEAK = 0x300) ∧
    (LTO_SYMBOL_PERMISSIONS_RODATA &&& LTO_SYMBOL_PERMISSIONS_CODE
        = LTO_SYMBOL_PERMISSIONS_RODATA ∧
      LTO_SYMBOL_PERMISSIONS_RODATA &&& LTO_SYMBOL_PERMISSIONS_DATA
        = LTO_SYMBOL_PERMISSIONS_RODATA ∧
      LTO_SYMBOL_SCOPE_INTERNAL &&& LTO_SYMBOL_SCOPE_DEFAULT = LTO_SYMBOL_SCOPE_INTERNAL ∧
      LTO_SYMBOL_DEFINITION_REGULAR &&& LTO_SYMBOL_DEFINITION_WEAK
        = LTO_SYMBOL_DEFINITION_REGULAR) ∧
    (∃ p ∈ permissionConstants, ∃ d ∈ definitionConstants, ∃ s ∈ scopeConstants,
      (∃ c1 ∈ permissionConstants, ∃ c2 ∈ permissionConstants, c1 ≠ c2 ∧
        (p ||| d ||| s) &&& c1 = c1 ∧ (p ||| d ||| s) &&& c2 = c2) ∧
      (∃ c1 ∈ definitionConstants, ∃ c2 ∈ definitionConstants, c1 ≠ c2 ∧
        (p ||| d ||| s) &&& c1 = c1 ∧ (p ||| d ||| s) &&& c2 = c2) ∧
      (∃ c1 ∈ scopeConstants, ∃ c2 ∈ scopeConstants, c1 ≠ c2 ∧
        (p ||| d ||| s) &&& c1 = c1 ∧ (p ||| d ||| s) &&& c2 = c2)) := by
  refine ⟨by decide, by decide, ?_⟩
  refine ⟨LTO_SYMBOL_PERMISSIONS_CODE, by decide, LTO_SYMBOL_DEFINITION_WEAK, by decide,
    LTO_SYMBOL_SCOPE_DEFAULT, by decide, ?_, ?_, ?_⟩
  · exact ⟨LTO_SYMBOL_PERMISSIONS_CODE, by decide, LTO_SYMBOL_PERMISSIONS_RODATA, by decide,
      by decide, by decide, by decide⟩
  · exact ⟨LTO_SYMBOL_DEFINITION_WEAK, by decide, LTO_SYMBOL_DEFINITION_REGULAR, by decide,
      by decide, by decide, by decide⟩
  · exact ⟨LTO_SYMBOL_SCOPE_DEFAULT, by decide, LTO_SYMBOL_SCOPE_INTERNAL, by decide,
      by decide, by decide, by decide⟩

/-- C10: decoding a packed word into the four-field record is partial.  The
union of the class masks is 0x3FFF; the words 0x20, 0, 0x600 and 0x3800 lie
inside it and have, respectively, a permission field that is none of 0, CODE,
DATA, RODATA, a definition field (0 and 0x600) that is no named definition
constant, and a scope field (0 and 0x3800) that is no named scope constant, so
none of them decodes; a word decodes exactly when its permission field is 0 or
a named permission constant and its definition and scope fields are named
constants. -/
theorem unpack_not_total :
    (LTO_SYMBOL_ALIGNMENT_MASK ||| LTO_SYMBOL_PERMISSIONS_MASK |||
      LTO_SYMBOL_DEFINITION_MASK ||| LTO_SYMBOL_SCOPE_MASK = 0x3FFF) ∧
    ((0x20 : Nat) &&& 0x3FFF = 0x20 ∧ permissionField 0x20 = 0x20 ∧
      permissionField 0x20 ∉ 0 :: permissionConstants ∧
      SymbolAttributes.unpack 0x20 = none) ∧
    ((0 : Nat) &&& 0x3FFF = 0 ∧ definitionField 0 = 0 ∧
      definitionField 0 ∉ definitionConstants ∧ scopeField 0 = 0 ∧
      scopeField 0 ∉ scopeConstants ∧ SymbolAttributes.unpack 0 = none) ∧
    ((0x600 : Nat) &&& 0x3FFF = 0x600 ∧ definitionField 0x600 = 0x600 ∧
      definitionField 0x600 ∉ definitionConstants ∧
      SymbolAttributes.unpack 0x600 = none) ∧
    ((0x3800 : Nat) &&& 0x3FFF = 0x3800 ∧ scopeField 0x3800 = 0x3800 ∧
      scopeField 0x3800 ∉ scopeConstants ∧ SymbolAttributes.unpack 0x3800 = none) ∧
    (∀ w : Nat, (SymbolAttributes.unpack w).isSome ↔
      (permissionField w ∈ 0 :: permissionConstants ∧
        definitionField w ∈ definitionConstants ∧ scopeField w ∈ scopeConstants)) := by
  refine ⟨by decide, by decide, by decide, by decide, by decide, ?_⟩
  intro w
  rw [← permission_ofField_isSome, ← definition_ofField_isSome, ← scope_ofField_isSome]
  unfold SymbolAttributes.unpack
  cases Permission.ofField (permissionField w) <;>
    cases Definition.ofField (definitionField w) <;>
      cases Scope.ofField (scopeField w) <;> simp

/-- C5: for a generator that holds one module and has a working triple, adding
a second module whose triple is incompatible with the working triple returns
true and leaves the generator as it was (its module sequence is still the first
module alone); adding a compatible one returns false and appends it. -/
theorem add_module_atomic_on_failure (compatible : String → String → Bool)
    (cg : LTOCodeGenerator) (m1 m2 : LTOModule) (t : String)
    (hm : cg.modules = [m1]) (ht : cg.working_triple = some t) :
    (compatible t m2.target_triple = false →
      lto_codegen_add_module compatible cg m2 = (true, cg) ∧
      (lto_codegen_add_module compatible cg m2).2.modules = [m1]) ∧
    (compatible t m2.target_triple = true →
      (lto_codegen_add_module compatible cg m2).1 = false ∧
      (lto_codegen_add_module compatible cg m2).2.modules = [m1, m2]) := by
  constructor
  · intro hc
    simp [lto_codegen_add_module, ht, hc, hm]
  · intro hc
    simp [lto_codegen_add_module, ht, hc, hm]

/-- C5 on a generator obtained from a fresh one by adding an x86_64 module; the
second module is for arm64, with equality of triples as compatibility. -/
theorem add_module_atomic_on_failure_witness :
    (lto_codegen_add_module (fun a b => a == b) lto_codegen_create
        ⟨"x86_64-apple-darwin", [], [], []⟩).2.modules = [⟨"x86_64-apple-darwin", [], [], []⟩] ∧
    (lto_codegen_add_module (fun a b => a == b)
        (lto_codegen_add_module (fun a b => a == b) lto_codegen_create
          ⟨"x86_64-apple-darwin", [], [], []⟩).2
        ⟨"arm64-apple-ios", [], [], []⟩).1 = true ∧
    (lto_codegen_add_module (fun a b => a == b)
        (lto_codegen_add_module (fun a b => a == b) lto_codegen_create
          ⟨"x86_64-apple-darwin", [], [], []⟩).2
        ⟨"arm64-apple-ios", [], [], []⟩).2.modules = [⟨"x86_64-apple-darwin", [], [], []⟩] := by
  have h := (add_module_atomic_on_failure (fun a b => a == b)
    (lto_codegen_add_module (fun a b => a == b) lto_codegen_create
      ⟨"x86_64-apple-darwin", [], [], []⟩).2
    ⟨"x86_64-apple-darwin", [], [], []⟩ ⟨"arm64-apple-ios", [], [], []⟩
    "x86_64-apple-darwin" rfl rfl).1 (by decide)
  exact ⟨rfl, by rw [h.1], h.2⟩

/-- C6: for a module loaded from a recognised container, the symbol count is the
number of symbol entries of the container; the name and attribute accessors
return the entry at every index below the count and fail with `IndexError` at
every index from the count upwards. -/
theorem symbol_accessors_indexing (parse : List Nat → Option Container) (mem : List Nat)
    (c : Container) (mod : LTOModule) (hc : parse mem = some c)
    (hmod : lto_module_create_from_memory parse mem = .ok mod) :
    lto_module_get_num_symbols mod = c.symbol_entries.length ∧
    (∀ i, i < lto_module_get_num_symbols mod →
      ∃ e, c.symbol_entries.get? i = some e ∧
        lto_module_get_symbol_name mod i = .ok e.name ∧
        lto_module_get_symbol_attribute mod i = .ok e.attributes) ∧
    (∀ i, lto_module_get_num_symbols mod ≤ i →
      lto_module_get_symbol_name mod i = .error .IndexError ∧
      lto_module_get_symbol_attribute mod i = .error .IndexError) ∧
    (lto_module_get_symbol_name mod (lto_module_get_num_symbols mod) = .error .IndexError ∧
      lto_module_get_symbol_attribute mod (lto_module_get_num_symbols mod)
        = .error .IndexError) := by
  have hsym : mod.symbols = c.symbol_entries := by
    simp only [lto_module_create_from_memory, hc] at hmod
    cases hmod
    rfl
  have hge : ∀ i, lto_module_get_num_symbols mod ≤ i →
      lto_module_get_symbol_name mod i = .error .IndexError ∧
      lto_module_get_symbol_attribute mod i = .error .IndexError := by
    intro i hi
    have hn : ¬ i < lto_module_get_num_symbols mod := Nat.not_lt.mpr hi
    simp [lto_module_get_symbol_name, lto_module_get_symbol_attribute, hn]
  refine ⟨by simp [lto_module_get_num_symbols, hsym], ?_, hge, hge _ (Nat.le_refl _)⟩
  intro i hi
  have hi2 : i < mod.symbols.length := hi
  refine ⟨mod.symbols.get ⟨i, hi2⟩, ?_, ?_, ?_⟩
  · rw [← hsym]
    exact List.get?_eq_get hi2
  · simp [lto_module_get_symbol_name, hi]
  · simp [lto_module_get_symbol_attribute, hi]

/-- C6 on the two-symbol example container: the count is 2, index 1 yields the
second entry and index 2 fails with `IndexError`. -/
theorem symbol_accessors_indexing_witness :
    lto_module_get_num_symbols ⟨"x86_64-apple-darwin",
        [⟨"_main", 0x19A4⟩, ⟨"_table", 0x1183⟩], [], []⟩ = 2 ∧
    lto_module_get_symbol_name ⟨"x86_64-apple-darwin",
        [⟨"_main", 0x19A4⟩, ⟨"_table", 0x1183⟩], [], []⟩ 2 = .error .IndexError := by
  have h := symbol_accessors_indexing exampleParse [0x42, 0x43, 0xC0, 0xDE] exampleContainer
    ⟨"x86_64-apple-darwin", [⟨"_main", 0x19A4⟩, ⟨"_table", 0x1183⟩], [], []⟩ rfl rfl
  exact ⟨h.1, h.2.2.2.1⟩

end LTO
